import Mathlib

/-!
Verification of the identity-linking and comment-board core of `src/app.py`.

The file embeds the data model (SQLAlchemy tables `User` and `Comment`), the
identity-resolution logic of the OAuth callbacks `callback_yandex` and
`callback_google`, the comment CRUD handlers `comments` (POST branch) and
`delete_comment`, and the wtforms validators of `CommentForm`, as pure Lean
functions over an explicit store, and proves the documented properties about
them.

Modelling notes, justified against the source and its libraries:
- `User.query.filter_by(col=v).first()` is embedded as `List.find?` with the
  predicate `col == v` on `Option String`.  SQLAlchemy compiles
  `filter_by(col=None)` to `col IS NULL`, so `Option` equality (where
  `none == none` is true) is the faithful translation: a `None` lookup value
  matches rows whose column is NULL.
- the ORM update `existing_user.yandex_id = unique_id; commit()` is an
  UPDATE-by-primary-key, embedded as a map over the user list that rewrites
  the rows with the matched user's id.
- `db.session.add(User(...)); commit()` with an autoincrement primary key is
  embedded as appending a row carrying the store's next free id.
- Python's `a or b` on optional strings treats `None` and `""` as falsy;
  it is embedded as `pyOr`.
- `oauthlib`'s `parse_request_body_response` raises on a token-endpoint error
  body (the body of any non-2xx token response), and the callbacks contain no
  exception handling, so a failed token exchange is embedded as an
  `unhandledException` outcome that leaves the store and session untouched.
- `wtforms.validators.DataRequired` rejects a string field whose value is
  empty or whose `.strip()` is empty; Python's `str.strip()` removes the
  Unicode whitespace set (`str.isspace()`), embedded here as `pyIsSpace`;
  `Length(min=1, max=500)` bounds the length.  `created_at` timestamps
  (wall-clock time) are not modelled.
-/

/-- Row of the `user` table: integer primary key, nullable unique `yandex_id`,
`google_id` and `email` columns, nullable `name`. -/
structure User where
  id : Nat
  yandex_id : Option String
  google_id : Option String
  name : Option String
  email : Option String
deriving Repr, DecidableEq

/-- Row of the `comment` table: integer primary key, body, owning user id
(`created_at` is wall-clock time and is not modelled). -/
structure Comment where
  id : Nat
  body : String
  user_id : Nat
deriving Repr, DecidableEq

/-- The persistent store: the two tables plus the autoincrement counters for
their primary keys. -/
structure Store where
  users : List User
  nextUserId : Nat
  comments : List Comment
  nextCommentId : Nat
deriving Repr, DecidableEq

/-- A fresh database, as produced by `db.create_all()`: both tables empty,
autoincrement counters at 1. -/
def emptyStore : Store :=
  { users := [], nextUserId := 1, comments := [], nextCommentId := 1 }

/-- The normalized external identity extracted from a provider userinfo
response: every field is optional because the handlers read them with
`dict.get`, which yields `None` for a missing key. -/
structure ExternalIdentity where
  externalId : Option String
  email : Option String
  name : Option String
deriving Repr, DecidableEq

/-- Python `a or b` on optional strings: `None` and the empty string are
falsy. -/
def pyOr (a b : Option String) : Option String :=
  match a with
  | some s => if s = "" then b else some s
  | none => b

/-- The ORM effect of `existing_user.yandex_id = unique_id; db.session.commit()`
(src/app.py lines 260-261): an UPDATE of the `yandex_id` column on the rows
whose primary key is `uid`. -/
def setYandex (x : Option String) (uid : Nat) (v : User) : User :=
  if v.id == uid then { v with yandex_id := x } else v

/-- The ORM effect of `existing_user.google_id = unique_id; db.session.commit()`
(src/app.py lines 336-337). -/
def setGoogle (x : Option String) (uid : Nat) (v : User) : User :=
  if v.id == uid then { v with google_id := x } else v

/-- The identity-resolution core of `callback_yandex` (src/app.py lines
253-267): look up by `yandex_id`; otherwise look up by `email` and link by
setting `yandex_id` on the found row; otherwise insert a new row.  Returns
the updated store and the resolved user. -/
def resolve_yandex (s : Store) (i : ExternalIdentity) : Store × User :=
  match s.users.find? (fun u => u.yandex_id == i.externalId) with
  | some u => (s, u)
  | none =>
    match s.users.find? (fun u => u.email == i.email) with
    | some u =>
      ({ s with users := s.users.map (setYandex i.externalId u.id) },
       { u with yandex_id := i.externalId })
    | none =>
      let u : User :=
        { id := s.nextUserId, yandex_id := i.externalId, google_id := none,
          name := i.name, email := i.email }
      ({ s with users := s.users ++ [u], nextUserId := s.nextUserId + 1 }, u)

/-- The identity-resolution core of `callback_google` (src/app.py lines
329-343), mirror image of `resolve_yandex` on the `google_id` column. -/
def resolve_google (s : Store) (i : ExternalIdentity) : Store × User :=
  match s.users.find? (fun u => u.google_id == i.externalId) with
  | some u => (s, u)
  | none =>
    match s.users.find? (fun u => u.email == i.email) with
    | some u =>
      ({ s with users := s.users.map (setGoogle i.externalId u.id) },
       { u with google_id := i.externalId })
    | none =>
      let u : User :=
        { id := s.nextUserId, yandex_id := none, google_id := i.externalId,
          name := i.name, email := i.email }
      ({ s with users := s.users ++ [u], nextUserId := s.nextUserId + 1 }, u)

/-- Result of the token-exchange POST to the provider's token endpoint:
either a 2xx response carrying an access token, or a non-2xx response whose
body is an OAuth error object. -/
inductive TokenResponse where
  | success (accessToken : String)
  | failure (status : Nat) (errorBody : String)
deriving Repr, DecidableEq

/-- A flash message queued for the next rendered page. -/
structure Flash where
  message : String
  category : String
deriving Repr, DecidableEq

/-- What the callback handler hands back to the browser: a redirect to
`/comments` with a flash message, or an unhandled Python exception (HTTP
500), which is what an uncaught `oauthlib` error produces. -/
inductive Outcome where
  | redirectComments (flash : Flash)
  | unhandledException
deriving Repr, DecidableEq

/-- Discriminator: did the handler answer the browser with a redirect to
`/comments` (with some flash message), as opposed to failing? -/
def Outcome.isRedirect : Outcome → Bool
  | .redirectComments _ => true
  | .unhandledException => false

/-- Yandex userinfo JSON fields read by the handler, each via `dict.get`. -/
structure YandexUserinfo where
  id : Option String
  default_email : Option String
  real_name : Option String
  display_name : Option String
deriving Repr, DecidableEq

/-- Google userinfo JSON fields read by the handler, each via `dict.get`. -/
structure GoogleUserinfo where
  sub : Option String
  email : Option String
  name : Option String
deriving Repr, DecidableEq

/-- The `/login/yandex/authorized` handler `callback_yandex` (src/app.py
lines 224-276), from the token exchange on, with the client configured.
Takes the store, the current session (a logged-in user id or none), the
token-endpoint response and the userinfo body; returns the new store, the
new session and the HTTP outcome.  A failed token exchange makes
`parse_request_body_response` raise with no handler in scope. -/
def callback_yandex (s : Store) (session : Option Nat) (tok : TokenResponse)
    (info : YandexUserinfo) : Store × Option Nat × Outcome :=
  match tok with
  | .failure _ _ => (s, session, .unhandledException)
  | .success _ =>
    let ident : ExternalIdentity :=
      { externalId := info.id, email := info.default_email,
        name := pyOr info.real_name info.display_name }
    let r := resolve_yandex s ident
    (r.1, some r.2.id,
     .redirectComments
       ⟨"Вы успешно вошли через Yandex как "
          ++ ((pyOr r.2.name r.2.email).getD "None") ++ "!", "success"⟩)

/-- The `/login/google/authorized` handler `callback_google` (src/app.py
lines 300-352), from the token exchange on, with the client configured. -/
def callback_google (s : Store) (session : Option Nat) (tok : TokenResponse)
    (info : GoogleUserinfo) : Store × Option Nat × Outcome :=
  match tok with
  | .failure _ _ => (s, session, .unhandledException)
  | .success _ =>
    let ident : ExternalIdentity :=
      { externalId := info.sub, email := info.email, name := info.name }
    let r := resolve_google s ident
    (r.1, some r.2.id,
     .redirectComments
       ⟨"Вы успешно вошли через Google как "
          ++ ((pyOr r.2.name r.2.email).getD "None") ++ "!", "success"⟩)

/-- Outcome of `delete_comment`: 404 from `get_or_404`, rejection of a
non-owner with a danger flash and no deletion, or deletion with a success
flash; both of the latter redirect to `/comments`. -/
inductive DeleteOutcome where
  | notFound
  | forbidden (flash : Flash)
  | deleted (flash : Flash)
deriving Repr, DecidableEq

/-- The `POST /delete_comment/<id>` handler `delete_comment` (src/app.py
lines 190-205), for an authenticated user with id `current_user_id`. -/
def delete_comment (s : Store) (current_user_id : Nat) (comment_id : Nat) :
    Store × DeleteOutcome :=
  match s.comments.find? (fun c => c.id == comment_id) with
  | none => (s, .notFound)
  | some c =>
    if c.user_id != current_user_id then
      (s, .forbidden ⟨"Вы можете удалять только свои комментарии.", "danger"⟩)
    else
      ({ s with comments := s.comments.filter (fun d => d.id != comment_id) },
       .deleted ⟨"Комментарий удалён.", "success"⟩)

/-- Python's whitespace predicate `str.isspace()`, the character set removed
by `str.strip()` with no argument (CPython's `Py_UNICODE_ISSPACE`): the
ASCII whitespace controls U+0009..U+000D, the file/group/record/unit
separators U+001C..U+001F, space, NEL U+0085, NBSP U+00A0, Ogham space mark
U+1680, the typographic spaces U+2000..U+200A, the line and paragraph
separators U+2028 and U+2029, narrow NBSP U+202F, medium mathematical space
U+205F, and ideographic space U+3000. -/
def pyIsSpace (c : Char) : Bool :=
  (0x09 ≤ c.toNat && c.toNat ≤ 0x0D) || (0x1C ≤ c.toNat && c.toNat ≤ 0x1F) ||
  c.toNat = 0x20 || c.toNat = 0x85 || c.toNat = 0xA0 || c.toNat = 0x1680 ||
  (0x2000 ≤ c.toNat && c.toNat ≤ 0x200A) || c.toNat = 0x2028 ||
  c.toNat = 0x2029 || c.toNat = 0x202F || c.toNat = 0x205F || c.toNat = 0x3000

/-- The `DataRequired()` validator of `CommentForm.body` (src/app.py line
117): a string field passes only if it is truthy (non-empty) and its
`.strip()` is truthy, i.e. it contains a character outside Python's
whitespace set. -/
def dataRequired (body : String) : Bool :=
  body ≠ "" && body.data.any (fun c => !pyIsSpace c)

/-- The `Length(min=1, max=500)` validator of `CommentForm.body` (src/app.py
line 117). -/
def lengthValid (body : String) : Bool :=
  1 ≤ body.length && body.length ≤ 500

/-- The POST branch of the `comments` handler (src/app.py lines 176-186) for
an authenticated user: if the body passes both validators the comment is
inserted with the current user as owner; otherwise nothing is persisted.
Returns the store and whether the comment was accepted. -/
def comments_post (s : Store) (current_user_id : Nat) (body : String) :
    Store × Bool :=
  if dataRequired body && lengthValid body then
    ({ s with
        comments := s.comments ++
          [{ id := s.nextCommentId, body := body, user_id := current_user_id }],
        nextCommentId := s.nextCommentId + 1 }, true)
  else
    (s, false)

/-- The uniqueness invariant of the `user` table (src/app.py lines 99-105):
primary keys are pairwise distinct and below the autoincrement counter, and
the UNIQUE constraints on `yandex_id`, `google_id` and `email` hold — two
rows agreeing on a non-NULL value of one of those columns are the same row. -/
def StoreInv (s : Store) : Prop :=
  s.users.Pairwise (fun u v => u.id ≠ v.id) ∧
  (∀ u ∈ s.users, u.id < s.nextUserId) ∧
  (∀ u ∈ s.users, ∀ v ∈ s.users,
    (u.yandex_id.isSome → u.yandex_id = v.yandex_id → u.id = v.id) ∧
    (u.google_id.isSome → u.google_id = v.google_id → u.id = v.id) ∧
    (u.email.isSome → u.email = v.email → u.id = v.id))

instance (s : Store) : Decidable (StoreInv s) := by
  unfold StoreInv
  infer_instance

/-- Provider tag, for stating properties over sequences of resolutions. -/
inductive Provider where
  | yandex
  | google
deriving Repr, DecidableEq

/-- One resolution event: the store effect of one OAuth callback. -/
def resolveEvent (s : Store) (ev : Provider × ExternalIdentity) : Store :=
  match ev.1 with
  | .yandex => (resolve_yandex s ev.2).1
  | .google => (resolve_google s ev.2).1

/-- A sequence of resolutions starting from a store. -/
def runEvents (s : Store) (evs : List (Provider × ExternalIdentity)) : Store :=
  evs.foldl resolveEvent s

example :
    (resolve_yandex emptyStore ⟨some "y1", some "a@x", some "Alice"⟩).2.id = 1 := by
  decide

example :
    StoreInv (resolve_yandex emptyStore ⟨some "y1", some "a@x", some "Alice"⟩).1 := by
  decide

/-! Helper lemmas about the resolvers. -/

theorem mem_id_eq {l : List User} (hPW : l.Pairwise (fun u v => u.id ≠ v.id))
    {u v : User} (hu : u ∈ l) (hv : v ∈ l) (h : u.id = v.id) : u = v := by
  induction l with
  | nil => cases hu
  | cons a t ih =>
    obtain ⟨ha, ht⟩ := List.pairwise_cons.mp hPW
    rcases List.mem_cons.mp hu with rfl | hu'
    · rcases List.mem_cons.mp hv with rfl | hv'
      · rfl
      · exact absurd h (ha v hv')
    · rcases List.mem_cons.mp hv with rfl | hv'
      · exact absurd h.symm (ha u hu')
      · exact ih ht hu' hv'

theorem resolve_yandex_found {s : Store} {i : ExternalIdentity} {u : User}
    (h : s.users.find? (fun u => u.yandex_id == i.externalId) = some u) :
    resolve_yandex s i = (s, u) := by
  simp [resolve_yandex, h]

theorem resolve_yandex_link {s : Store} {i : ExternalIdentity} {u : User}
    (h₁ : s.users.find? (fun u => u.yandex_id == i.externalId) = none)
    (h₂ : s.users.find? (fun u => u.email == i.email) = some u) :
    resolve_yandex s i =
      ({ s with users := s.users.map (setYandex i.externalId u.id) },
       { u with yandex_id := i.externalId }) := by
  simp [resolve_yandex, h₁, h₂]

theorem resolve_yandex_create {s : Store} {i : ExternalIdentity}
    (h₁ : s.users.find? (fun u => u.yandex_id == i.externalId) = none)
    (h₂ : s.users.find? (fun u => u.email == i.email) = none) :
    resolve_yandex s i =
      ({ s with
          users := s.users ++
            [{ id := s.nextUserId, yandex_id := i.externalId, google_id := none,
               name := i.name, email := i.email }],
          nextUserId := s.nextUserId + 1 },
       { id := s.nextUserId, yandex_id := i.externalId, google_id := none,
         name := i.name, email := i.email }) := by
  simp [resolve_yandex, h₁, h₂]

theorem resolve_google_found {s : Store} {i : ExternalIdentity} {u : User}
    (h : s.users.find? (fun u => u.google_id == i.externalId) = some u) :
    resolve_google s i = (s, u) := by
  simp [resolve_google, h]

theorem resolve_google_link {s : Store} {i : ExternalIdentity} {u : User}
    (h₁ : s.users.find? (fun u => u.google_id == i.externalId) = none)
    (h₂ : s.users.find? (fun u => u.email == i.email) = some u) :
    resolve_google s i =
      ({ s with users := s.users.map (setGoogle i.externalId u.id) },
       { u with google_id := i.externalId }) := by
  simp [resolve_google, h₁, h₂]

theorem resolve_google_create {s : Store} {i : ExternalIdentity}
    (h₁ : s.users.find? (fun u => u.google_id == i.externalId) = none)
    (h₂ : s.users.find? (fun u => u.email == i.email) = none) :
    resolve_google s i =
      ({ s with
          users := s.users ++
            [{ id := s.nextUserId, yandex_id := none, google_id := i.externalId,
               name := i.name, email := i.email }],
          nextUserId := s.nextUserId + 1 },
       { id := s.nextUserId, yandex_id := none, google_id := i.externalId,
         name := i.name, email := i.email }) := by
  simp [resolve_google, h₁, h₂]

theorem resolve_yandex_extId (s : Store) (i : ExternalIdentity) :
    (resolve_yandex s i).2.yandex_id = i.externalId := by
  cases hfy : s.users.find? (fun u => u.yandex_id == i.externalId) with
  | some u =>
    rw [resolve_yandex_found hfy]
    simpa using List.find?_some hfy
  | none =>
    cases hfe : s.users.find? (fun u => u.email == i.email) with
    | some u => rw [resolve_yandex_link hfy hfe]
    | none => rw [resolve_yandex_create hfy hfe]

theorem resolve_google_extId (s : Store) (i : ExternalIdentity) :
    (resolve_google s i).2.google_id = i.externalId := by
  cases hfy : s.users.find? (fun u => u.google_id == i.externalId) with
  | some u =>
    rw [resolve_google_found hfy]
    simpa using List.find?_some hfy
  | none =>
    cases hfe : s.users.find? (fun u => u.email == i.email) with
    | some u => rw [resolve_google_link hfy hfe]
    | none => rw [resolve_google_create hfy hfe]

theorem resolve_yandex_mem (s : Store) (i : ExternalIdentity) :
    (resolve_yandex s i).2 ∈ (resolve_yandex s i).1.users := by
  cases hfy : s.users.find? (fun u => u.yandex_id == i.externalId) with
  | some u =>
    rw [resolve_yandex_found hfy]
    exact List.mem_of_find?_eq_some hfy
  | none =>
    cases hfe : s.users.find? (fun u => u.email == i.email) with
    | some u =>
      rw [resolve_yandex_link hfy hfe]
      have hu : u ∈ s.users := List.mem_of_find?_eq_some hfe
      refine List.mem_map.mpr ⟨u, hu, ?_⟩
      simp [setYandex]
    | none =>
      rw [resolve_yandex_create hfy hfe]
      simp

theorem resolve_google_mem (s : Store) (i : ExternalIdentity) :
    (resolve_google s i).2 ∈ (resolve_google s i).1.users := by
  cases hfy : s.users.find? (fun u => u.google_id == i.externalId) with
  | some u =>
    rw [resolve_google_found hfy]
    exact List.mem_of_find?_eq_some hfy
  | none =>
    cases hfe : s.users.find? (fun u => u.email == i.email) with
    | some u =>
      rw [resolve_google_link hfy hfe]
      have hu : u ∈ s.users := List.mem_of_find?_eq_some hfe
      refine List.mem_map.mpr ⟨u, hu, ?_⟩
      simp [setGoogle]
    | none =>
      rw [resolve_google_create hfy hfe]
      simp

theorem storeInv_empty : StoreInv emptyStore := by
  decide

@[simp] theorem setYandex_id (x : Option String) (uid : Nat) (v : User) :
    (setYandex x uid v).id = v.id := by
  unfold setYandex
  split <;> rfl

@[simp] theorem setYandex_google (x : Option String) (uid : Nat) (v : User) :
    (setYandex x uid v).google_id = v.google_id := by
  unfold setYandex
  split <;> rfl

@[simp] theorem setYandex_email (x : Option String) (uid : Nat) (v : User) :
    (setYandex x uid v).email = v.email := by
  unfold setYandex
  split <;> rfl

@[simp] theorem setYandex_name (x : Option String) (uid : Nat) (v : User) :
    (setYandex x uid v).name = v.name := by
  unfold setYandex
  split <;> rfl

theorem setYandex_yid_of_eq {uid : Nat} {v : User} (x : Option String)
    (h : v.id = uid) : (setYandex x uid v).yandex_id = x := by
  simp [setYandex, h]

theorem setYandex_yid_of_ne {uid : Nat} {v : User} (x : Option String)
    (h : v.id ≠ uid) : (setYandex x uid v).yandex_id = v.yandex_id := by
  simp [setYandex, h]

@[simp] theorem setGoogle_id (x : Option String) (uid : Nat) (v : User) :
    (setGoogle x uid v).id = v.id := by
  unfold setGoogle
  split <;> rfl

@[simp] theorem setGoogle_yandex (x : Option String) (uid : Nat) (v : User) :
    (setGoogle x uid v).yandex_id = v.yandex_id := by
  unfold setGoogle
  split <;> rfl

@[simp] theorem setGoogle_email (x : Option String) (uid : Nat) (v : User) :
    (setGoogle x uid v).email = v.email := by
  unfold setGoogle
  split <;> rfl

@[simp] theorem setGoogle_name (x : Option String) (uid : Nat) (v : User) :
    (setGoogle x uid v).name = v.name := by
  unfold setGoogle
  split <;> rfl

theorem setGoogle_gid_of_eq {uid : Nat} {v : User} (x : Option String)
    (h : v.id = uid) : (setGoogle x uid v).google_id = x := by
  simp [setGoogle, h]

theorem setGoogle_gid_of_ne {uid : Nat} {v : User} (x : Option String)
    (h : v.id ≠ uid) : (setGoogle x uid v).google_id = v.google_id := by
  simp [setGoogle, h]

theorem storeInv_resolve_yandex {s : Store} (i : ExternalIdentity)
    (h : StoreInv s) : StoreInv (resolve_yandex s i).1 := by
  obtain ⟨hPW, hLT, hUniq⟩ := h
  cases hfy : s.users.find? (fun u => u.yandex_id == i.externalId) with
  | some u =>
    rw [resolve_yandex_found hfy]
    exact ⟨hPW, hLT, hUniq⟩
  | none =>
    have hNoY : ∀ v ∈ s.users, v.yandex_id ≠ i.externalId := by
      intro v hv
      have := List.find?_eq_none.mp hfy v hv
      simpa using this
    cases hfe : s.users.find? (fun u => u.email == i.email) with
    | some u =>
      rw [resolve_yandex_link hfy hfe]
      refine ⟨?_, ?_, ?_⟩
      · rw [List.pairwise_map]
        exact hPW.imp (fun hab => by simpa using hab)
      · intro w hw
        obtain ⟨v, hv, rfl⟩ := List.mem_map.mp hw
        simpa using hLT v hv
      · intro w₁ hw₁ w₂ hw₂
        obtain ⟨a, ha, rfl⟩ := List.mem_map.mp hw₁
        obtain ⟨b, hb, rfl⟩ := List.mem_map.mp hw₂
        refine ⟨?_, ?_, ?_⟩
        · by_cases ca : a.id = u.id <;> by_cases cb : b.id = u.id
          · intro _ _
            simp [ca, cb]
          · rw [setYandex_yid_of_eq _ ca, setYandex_yid_of_ne _ cb]
            intro _ he
            exact absurd he.symm (hNoY b hb)
          · rw [setYandex_yid_of_ne _ ca, setYandex_yid_of_eq _ cb]
            intro _ he
            exact absurd he (hNoY a ha)
          · rw [setYandex_yid_of_ne _ ca, setYandex_yid_of_ne _ cb]
            intro hs he
            simpa using (hUniq a ha b hb).1 hs he
        · intro hs he
          simp only [setYandex_google] at hs he
          simpa using (hUniq a ha b hb).2.1 hs he
        · intro hs he
          simp only [setYandex_email] at hs he
          simpa using (hUniq a ha b hb).2.2 hs he
    | none =>
      have hNoE : ∀ v ∈ s.users, v.email ≠ i.email := by
        intro v hv
        have := List.find?_eq_none.mp hfe v hv
        simpa using this
      rw [resolve_yandex_create hfy hfe]
      refine ⟨?_, ?_, ?_⟩
      · rw [List.pairwise_append]
        refine ⟨hPW, List.pairwise_singleton _ _, ?_⟩
        intro a ha b hb
        simp only [List.mem_singleton] at hb
        subst hb
        exact Nat.ne_of_lt (hLT a ha)
      · intro w hw
        rcases List.mem_append.mp hw with h | h
        · exact Nat.lt_succ_of_lt (hLT w h)
        · simp only [List.mem_singleton] at h
          subst h
          exact Nat.lt_succ_self _
      · intro w₁ hw₁ w₂ hw₂
        rcases List.mem_append.mp hw₁ with h₁ | h₁ <;>
          rcases List.mem_append.mp hw₂ with h₂ | h₂
        · exact hUniq w₁ h₁ w₂ h₂
        · simp only [List.mem_singleton] at h₂
          subst h₂
          refine ⟨?_, ?_, ?_⟩
          · intro _ he
            exact absurd he (hNoY w₁ h₁)
          · intro hs he
            rw [he] at hs
            simp at hs
          · intro _ he
            exact absurd he (hNoE w₁ h₁)
        · simp only [List.mem_singleton] at h₁
          subst h₁
          refine ⟨?_, ?_, ?_⟩
          · intro _ he
            exact absurd he.symm (hNoY w₂ h₂)
          · intro hs _
            simp at hs
          · intro _ he
            exact absurd he.symm (hNoE w₂ h₂)
        · simp only [List.mem_singleton] at h₁ h₂
          subst h₁
          subst h₂
          exact ⟨fun _ _ => rfl, fun _ _ => rfl, fun _ _ => rfl⟩

theorem storeInv_resolve_google {s : Store} (i : ExternalIdentity)
    (h : StoreInv s) : StoreInv (resolve_google s i).1 := by
  obtain ⟨hPW, hLT, hUniq⟩ := h
  cases hfg : s.users.find? (fun u => u.google_id == i.externalId) with
  | some u =>
    rw [resolve_google_found hfg]
    exact ⟨hPW, hLT, hUniq⟩
  | none =>
    have hNoG : ∀ v ∈ s.users, v.google_id ≠ i.externalId := by
      intro v hv
      have := List.find?_eq_none.mp hfg v hv
      simpa using this
    cases hfe : s.users.find? (fun u => u.email == i.email) with
    | some u =>
      rw [resolve_google_link hfg hfe]
      refine ⟨?_, ?_, ?_⟩
      · rw [List.pairwise_map]
        exact hPW.imp (fun hab => by simpa using hab)
      · intro w hw
        obtain ⟨v, hv, rfl⟩ := List.mem_map.mp hw
        simpa using hLT v hv
      · intro w₁ hw₁ w₂ hw₂
        obtain ⟨a, ha, rfl⟩ := List.mem_map.mp hw₁
        obtain ⟨b, hb, rfl⟩ := List.mem_map.mp hw₂
        refine ⟨?_, ?_, ?_⟩
        · intro hs he
          simp only [setGoogle_yandex] at hs he
          simpa using (hUniq a ha b hb).1 hs he
        · by_cases ca : a.id = u.id <;> by_cases cb : b.id = u.id
          · intro _ _
            simp [ca, cb]
          · rw [setGoogle_gid_of_eq _ ca, setGoogle_gid_of_ne _ cb]
            intro _ he
            exact absurd he.symm (hNoG b hb)
          · rw [setGoogle_gid_of_ne _ ca, setGoogle_gid_of_eq _ cb]
            intro _ he
            exact absurd he (hNoG a ha)
          · rw [setGoogle_gid_of_ne _ ca, setGoogle_gid_of_ne _ cb]
            intro hs he
            simpa using (hUniq a ha b hb).2.1 hs he
        · intro hs he
          simp only [setGoogle_email] at hs he
          simpa using (hUniq a ha b hb).2.2 hs he
    | none =>
      have hNoE : ∀ v ∈ s.users, v.email ≠ i.email := by
        intro v hv
        have := List.find?_eq_none.mp hfe v hv
        simpa using this
      rw [resolve_google_create hfg hfe]
      refine ⟨?_, ?_, ?_⟩
      · rw [List.pairwise_append]
        refine ⟨hPW, List.pairwise_singleton _ _, ?_⟩
        intro a ha b hb
        simp only [List.mem_singleton] at hb
        subst hb
        exact Nat.ne_of_lt (hLT a ha)
      · intro w hw
        rcases List.mem_append.mp hw with h | h
        · exact Nat.lt_succ_of_lt (hLT w h)
        · simp only [List.mem_singleton] at h
          subst h
          exact Nat.lt_succ_self _
      · intro w₁ hw₁ w₂ hw₂
        rcases List.mem_append.mp hw₁ with h₁ | h₁ <;>
          rcases List.mem_append.mp hw₂ with h₂ | h₂
        · exact hUniq w₁ h₁ w₂ h₂
        · simp only [List.mem_singleton] at h₂
          subst h₂
          refine ⟨?_, ?_, ?_⟩
          · intro hs he
            rw [he] at hs
            simp at hs
          · intro _ he
            exact absurd he (hNoG w₁ h₁)
          · intro _ he
            exact absurd he (hNoE w₁ h₁)
        · simp only [List.mem_singleton] at h₁
          subst h₁
          refine ⟨?_, ?_, ?_⟩
          · intro hs _
            simp at hs
          · intro _ he
            exact absurd he.symm (hNoG w₂ h₂)
          · intro _ he
            exact absurd he.symm (hNoE w₂ h₂)
        · simp only [List.mem_singleton] at h₁ h₂
          subst h₁
          subst h₂
          exact ⟨fun _ _ => rfl, fun _ _ => rfl, fun _ _ => rfl⟩

theorem storeInv_runEvents (evs : List (Provider × ExternalIdentity))
    {s : Store} (h : StoreInv s) : StoreInv (runEvents s evs) := by
  induction evs generalizing s with
  | nil => exact h
  | cons ev t ih =>
    refine ih ?_
    cases hp : ev.1 with
    | yandex => simpa [resolveEvent, hp] using storeInv_resolve_yandex ev.2 h
    | google => simpa [resolveEvent, hp] using storeInv_resolve_google ev.2 h

theorem setYandex_of_ne {uid : Nat} {v : User} (x : Option String)
    (h : v.id ≠ uid) : setYandex x uid v = v := by
  simp [setYandex, h]

theorem setGoogle_of_ne {uid : Nat} {v : User} (x : Option String)
    (h : v.id ≠ uid) : setGoogle x uid v = v := by
  simp [setGoogle, h]

/-! The claims. -/

/-- C4: the uniqueness invariant — at most one Account holds a given
`(provider, externalId)` pair when present, and at most one Account holds a
given email when present — holds of the initial empty store and is preserved
by every execution of the resolution workflow (both the Yandex and the
Google callback path), hence by every sequence of resolved identities. -/
theorem uniqueness_invariant_preserved :
    StoreInv emptyStore ∧
    (∀ (s : Store) (i : ExternalIdentity),
      StoreInv s → StoreInv (resolve_yandex s i).1) ∧
    (∀ (s : Store) (i : ExternalIdentity),
      StoreInv s → StoreInv (resolve_google s i).1) ∧
    (∀ evs : List (Provider × ExternalIdentity),
      StoreInv (runEvents emptyStore evs)) :=
  ⟨storeInv_empty,
   fun _ i h => storeInv_resolve_yandex i h,
   fun _ i h => storeInv_resolve_google i h,
   fun evs => storeInv_runEvents evs storeInv_empty⟩

/-- Witness for C4: the invariant after one concrete Yandex resolution on
the empty store. -/
theorem uniqueness_invariant_preserved_witness :
    StoreInv (resolve_yandex emptyStore ⟨some "y1", some "a@x", some "Alice"⟩).1 :=
  uniqueness_invariant_preserved.2.1 emptyStore
    ⟨some "y1", some "a@x", some "Alice"⟩ uniqueness_invariant_preserved.1

/-- C3: for every identity with a `(provider, externalId)` not present in
the store and an email not held by any existing Account, resolution creates
exactly one new Account whose provider externalId and email are the
identity's values and whose name is the identity's display name; no other
Account is created or modified (the store is exactly the old store with the
one new row appended). -/
theorem fresh_identity_creates_single_account :
    (∀ (s : Store) (i : ExternalIdentity) (x e : String),
      i.externalId = some x → i.email = some e →
      (∀ v ∈ s.users, v.yandex_id ≠ some x) →
      (∀ v ∈ s.users, v.email ≠ some e) →
      resolve_yandex s i =
        ({ s with
            users := s.users ++
              [{ id := s.nextUserId, yandex_id := some x, google_id := none,
                 name := i.name, email := some e }],
            nextUserId := s.nextUserId + 1 },
         { id := s.nextUserId, yandex_id := some x, google_id := none,
           name := i.name, email := some e })) ∧
    (∀ (s : Store) (i : ExternalIdentity) (x e : String),
      i.externalId = some x → i.email = some e →
      (∀ v ∈ s.users, v.google_id ≠ some x) →
      (∀ v ∈ s.users, v.email ≠ some e) →
      resolve_google s i =
        ({ s with
            users := s.users ++
              [{ id := s.nextUserId, yandex_id := none, google_id := some x,
                 name := i.name, email := some e }],
            nextUserId := s.nextUserId + 1 },
         { id := s.nextUserId, yandex_id := none, google_id := some x,
           name := i.name, email := some e })) := by
  constructor
  · intro s i x e hx he hNoY hNoE
    have hfy : s.users.find? (fun u => u.yandex_id == i.externalId) = none := by
      rw [List.find?_eq_none]
      intro v hv
      rw [hx]
      simpa using hNoY v hv
    have hfe : s.users.find? (fun u => u.email == i.email) = none := by
      rw [List.find?_eq_none]
      intro v hv
      rw [he]
      simpa using hNoE v hv
    rw [resolve_yandex_create hfy hfe, hx, he]
  · intro s i x e hx he hNoG hNoE
    have hfg : s.users.find? (fun u => u.google_id == i.externalId) = none := by
      rw [List.find?_eq_none]
      intro v hv
      rw [hx]
      simpa using hNoG v hv
    have hfe : s.users.find? (fun u => u.email == i.email) = none := by
      rw [List.find?_eq_none]
      intro v hv
      rw [he]
      simpa using hNoE v hv
    rw [resolve_google_create hfg hfe, hx, he]

/-- Witness for C3: a fresh Yandex identity on the empty store creates
exactly the one expected row. -/
theorem fresh_identity_creates_single_account_witness :
    resolve_yandex emptyStore ⟨some "y1", some "a@x", some "Alice"⟩ =
      ({ users := [{ id := 1, yandex_id := some "y1", google_id := none,
                     name := some "Alice", email := some "a@x" }],
         nextUserId := 2, comments := [], nextCommentId := 1 },
       { id := 1, yandex_id := some "y1", google_id := none,
         name := some "Alice", email := some "a@x" }) :=
  fresh_identity_creates_single_account.1 emptyStore
    ⟨some "y1", some "a@x", some "Alice"⟩ "y1" "a@x" rfl rfl
    (by decide) (by decide)

/-- C2: resolving a second identity with the same provider and the same
externalId immediately after a first resolution returns the same Account
id, whatever email or name the second identity carries; so two identities
sharing a `(provider, externalId)` never yield two distinct Accounts. -/
theorem resolution_idempotent_on_external_id :
    (∀ (s : Store) (i j : ExternalIdentity) (x : String),
      StoreInv s → i.externalId = some x → j.externalId = some x →
      (resolve_yandex (resolve_yandex s i).1 j).2.id =
        (resolve_yandex s i).2.id) ∧
    (∀ (s : Store) (i j : ExternalIdentity) (x : String),
      StoreInv s → i.externalId = some x → j.externalId = some x →
      (resolve_google (resolve_google s i).1 j).2.id =
        (resolve_google s i).2.id) := by
  constructor
  · intro s i j x hInv hi hj
    have hInv₁ : StoreInv (resolve_yandex s i).1 := storeInv_resolve_yandex i hInv
    have hy : (resolve_yandex s i).2.yandex_id = i.externalId :=
      resolve_yandex_extId s i
    have hm : (resolve_yandex s i).2 ∈ (resolve_yandex s i).1.users :=
      resolve_yandex_mem s i
    cases hf : (resolve_yandex s i).1.users.find?
        (fun u => u.yandex_id == j.externalId) with
    | none =>
      exfalso
      have := List.find?_eq_none.mp hf _ hm
      apply this
      rw [hy, hi, hj]
      simp
    | some w =>
      rw [resolve_yandex_found hf]
      have hwmem := List.mem_of_find?_eq_some hf
      have hwy : w.yandex_id = j.externalId := by
        simpa using List.find?_some hf
      exact (hInv₁.2.2 w hwmem _ hm).1 (by rw [hwy, hj]; rfl)
        (by rw [hwy, hj, hy, hi])
  · intro s i j x hInv hi hj
    have hInv₁ : StoreInv (resolve_google s i).1 := storeInv_resolve_google i hInv
    have hg : (resolve_google s i).2.google_id = i.externalId :=
      resolve_google_extId s i
    have hm : (resolve_google s i).2 ∈ (resolve_google s i).1.users :=
      resolve_google_mem s i
    cases hf : (resolve_google s i).1.users.find?
        (fun u => u.google_id == j.externalId) with
    | none =>
      exfalso
      have := List.find?_eq_none.mp hf _ hm
      apply this
      rw [hg, hi, hj]
      simp
    | some w =>
      rw [resolve_google_found hf]
      have hwmem := List.mem_of_find?_eq_some hf
      have hwg : w.google_id = j.externalId := by
        simpa using List.find?_some hf
      exact (hInv₁.2.2 w hwmem _ hm).2.1 (by rw [hwg, hj]; rfl)
        (by rw [hwg, hj, hg, hi])

/-- Witness for C2: the same Yandex externalId with two different emails
resolves to the same Account id on the empty store. -/
theorem resolution_idempotent_on_external_id_witness :
    (resolve_yandex (resolve_yandex emptyStore ⟨some "y1", some "a@x", none⟩).1
        ⟨some "y1", some "b@x", some "B"⟩).2.id =
      (resolve_yandex emptyStore ⟨some "y1", some "a@x", none⟩).2.id :=
  resolution_idempotent_on_external_id.1 emptyStore
    ⟨some "y1", some "a@x", none⟩ ⟨some "y1", some "b@x", some "B"⟩ "y1"
    (by decide) rfl rfl

/-- C1: for an Account already linked to Yandex holding email `e`, resolving
a Google identity bearing the same email `e`, whose Google externalId is not
yet registered to any Account, returns the same Account id, now additionally
linked to Google, with its Yandex link and email unchanged and the updated
row stored; no second Account is created (the user table keeps its size).
Symmetrically for an Account created via Google and a later Yandex sign-in
with the same email. -/
theorem cross_provider_email_merge :
    (∀ (s : Store) (u : User) (i : ExternalIdentity) (e g : String),
      StoreInv s → u ∈ s.users → u.email = some e → u.yandex_id.isSome →
      (∀ v ∈ s.users, v.google_id ≠ some g) →
      i.externalId = some g → i.email = some e →
      (resolve_google s i).2.id = u.id ∧
      (resolve_google s i).2.google_id = some g ∧
      (resolve_google s i).2.yandex_id = u.yandex_id ∧
      (resolve_google s i).2.email = u.email ∧
      (resolve_google s i).2 ∈ (resolve_google s i).1.users ∧
      (resolve_google s i).1.users.length = s.users.length) ∧
    (∀ (s : Store) (u : User) (i : ExternalIdentity) (e y : String),
      StoreInv s → u ∈ s.users → u.email = some e → u.google_id.isSome →
      (∀ v ∈ s.users, v.yandex_id ≠ some y) →
      i.externalId = some y → i.email = some e →
      (resolve_yandex s i).2.id = u.id ∧
      (resolve_yandex s i).2.yandex_id = some y ∧
      (resolve_yandex s i).2.google_id = u.google_id ∧
      (resolve_yandex s i).2.email = u.email ∧
      (resolve_yandex s i).2 ∈ (resolve_yandex s i).1.users ∧
      (resolve_yandex s i).1.users.length = s.users.length) := by
  constructor
  · intro s u i e g hInv hu hue _ hNoG hx hie
    have hfg : s.users.find? (fun v => v.google_id == i.externalId) = none := by
      rw [List.find?_eq_none]
      intro v hv
      rw [hx]
      simpa using hNoG v hv
    cases hfe : s.users.find? (fun v => v.email == i.email) with
    | none =>
      exfalso
      apply List.find?_eq_none.mp hfe u hu
      rw [hue, hie]
      simp
    | some w =>
      have hwmem := List.mem_of_find?_eq_some hfe
      have hwe : w.email = i.email := by
        simpa using List.find?_some hfe
      have hwid : w.id = u.id :=
        (hInv.2.2 w hwmem u hu).2.2 (by rw [hwe, hie]; rfl)
          (by rw [hwe, hie, hue])
      have hw : w = u := mem_id_eq hInv.1 hwmem hu hwid
      subst hw
      rw [resolve_google_link hfg hfe]
      refine ⟨rfl, hx, rfl, rfl, ?_, by simp⟩
      refine List.mem_map.mpr ⟨w, hwmem, ?_⟩
      simp [setGoogle]
  · intro s u i e y hInv hu hue _ hNoY hx hie
    have hfy : s.users.find? (fun v => v.yandex_id == i.externalId) = none := by
      rw [List.find?_eq_none]
      intro v hv
      rw [hx]
      simpa using hNoY v hv
    cases hfe : s.users.find? (fun v => v.email == i.email) with
    | none =>
      exfalso
      apply List.find?_eq_none.mp hfe u hu
      rw [hue, hie]
      simp
    | some w =>
      have hwmem := List.mem_of_find?_eq_some hfe
      have hwe : w.email = i.email := by
        simpa using List.find?_some hfe
      have hwid : w.id = u.id :=
        (hInv.2.2 w hwmem u hu).2.2 (by rw [hwe, hie]; rfl)
          (by rw [hwe, hie, hue])
      have hw : w = u := mem_id_eq hInv.1 hwmem hu hwid
      subst hw
      rw [resolve_yandex_link hfy hfe]
      refine ⟨rfl, hx, rfl, rfl, ?_, by simp⟩
      refine List.mem_map.mpr ⟨w, hwmem, ?_⟩
      simp [setYandex]

/-- Witness for C1: a Yandex-created Account with email `a@x` absorbs a
Google identity with the same email and keeps its id 1. -/
theorem cross_provider_email_merge_witness :
    (resolve_google
        { users := [{ id := 1, yandex_id := some "y1", google_id := none,
                      name := some "Alice", email := some "a@x" }],
          nextUserId := 2, comments := [], nextCommentId := 1 }
        ⟨some "g1", some "a@x", some "AliceG"⟩).2.id = 1 ∧
    (resolve_google
        { users := [{ id := 1, yandex_id := some "y1", google_id := none,
                      name := some "Alice", email := some "a@x" }],
          nextUserId := 2, comments := [], nextCommentId := 1 }
        ⟨some "g1", some "a@x", some "AliceG"⟩).2.google_id = some "g1" :=
  ⟨(cross_provider_email_merge.1
      { users := [{ id := 1, yandex_id := some "y1", google_id := none,
                    name := some "Alice", email := some "a@x" }],
        nextUserId := 2, comments := [], nextCommentId := 1 }
      { id := 1, yandex_id := some "y1", google_id := none,
        name := some "Alice", email := some "a@x" }
      ⟨some "g1", some "a@x", some "AliceG"⟩ "a@x" "g1"
      (by decide) (by decide) rfl rfl (by decide) rfl rfl).1,
   (cross_provider_email_merge.1
      { users := [{ id := 1, yandex_id := some "y1", google_id := none,
                    name := some "Alice", email := some "a@x" }],
        nextUserId := 2, comments := [], nextCommentId := 1 }
      { id := 1, yandex_id := some "y1", google_id := none,
        name := some "Alice", email := some "a@x" }
      ⟨some "g1", some "a@x", some "AliceG"⟩ "a@x" "g1"
      (by decide) (by decide) rfl rfl (by decide) rfl rfl).2.1⟩

/-- C10: when resolution links a provider externalId onto an existing
Account found by email, the only field it modifies is that provider's
external-id column: the Account's id, email, name and the other provider's
external id are unchanged, every other user row is untouched, and the
comments table and both counters are untouched. -/
theorem link_step_frame :
    (∀ (s : Store) (i : ExternalIdentity) (u : User),
      s.users.find? (fun v => v.yandex_id == i.externalId) = none →
      s.users.find? (fun v => v.email == i.email) = some u →
      (resolve_yandex s i).2.id = u.id ∧
      (resolve_yandex s i).2.email = u.email ∧
      (resolve_yandex s i).2.name = u.name ∧
      (resolve_yandex s i).2.google_id = u.google_id ∧
      (resolve_yandex s i).2.yandex_id = i.externalId ∧
      (resolve_yandex s i).1.users = s.users.map (setYandex i.externalId u.id) ∧
      (∀ v ∈ s.users, v.id ≠ u.id → v ∈ (resolve_yandex s i).1.users) ∧
      (resolve_yandex s i).1.comments = s.comments ∧
      (resolve_yandex s i).1.nextUserId = s.nextUserId ∧
      (resolve_yandex s i).1.nextCommentId = s.nextCommentId) ∧
    (∀ (s : Store) (i : ExternalIdentity) (u : User),
      s.users.find? (fun v => v.google_id == i.externalId) = none →
      s.users.find? (fun v => v.email == i.email) = some u →
      (resolve_google s i).2.id = u.id ∧
      (resolve_google s i).2.email = u.email ∧
      (resolve_google s i).2.name = u.name ∧
      (resolve_google s i).2.yandex_id = u.yandex_id ∧
      (resolve_google s i).2.google_id = i.externalId ∧
      (resolve_google s i).1.users = s.users.map (setGoogle i.externalId u.id) ∧
      (∀ v ∈ s.users, v.id ≠ u.id → v ∈ (resolve_google s i).1.users) ∧
      (resolve_google s i).1.comments = s.comments ∧
      (resolve_google s i).1.nextUserId = s.nextUserId ∧
      (resolve_google s i).1.nextCommentId = s.nextCommentId) := by
  constructor
  · intro s i u h₁ h₂
    rw [resolve_yandex_link h₁ h₂]
    refine ⟨rfl, rfl, rfl, rfl, rfl, rfl, ?_, rfl, rfl, rfl⟩
    intro v hv hne
    exact List.mem_map.mpr ⟨v, hv, setYandex_of_ne _ hne⟩
  · intro s i u h₁ h₂
    rw [resolve_google_link h₁ h₂]
    refine ⟨rfl, rfl, rfl, rfl, rfl, rfl, ?_, rfl, rfl, rfl⟩
    intro v hv hne
    exact List.mem_map.mpr ⟨v, hv, setGoogle_of_ne _ hne⟩

/-- Witness for C10: linking a Yandex id onto the email-matched Account
keeps its name. -/
theorem link_step_frame_witness :
    (resolve_yandex
        { users := [{ id := 1, yandex_id := none, google_id := some "g1",
                      name := some "Alice", email := some "a@x" }],
          nextUserId := 2, comments := [], nextCommentId := 1 }
        ⟨some "y9", some "a@x", some "Ally"⟩).2.name = some "Alice" :=
  ((link_step_frame.1
      { users := [{ id := 1, yandex_id := none, google_id := some "g1",
                    name := some "Alice", email := some "a@x" }],
        nextUserId := 2, comments := [], nextCommentId := 1 }
      ⟨some "y9", some "a@x", some "Ally"⟩
      { id := 1, yandex_id := none, google_id := some "g1",
        name := some "Alice", email := some "a@x" }
      (by decide) (by decide)).2.2.1)

/-- C8: deleting an existing comment whose owner id differs from the current
session's Account id fails with the danger notice and a redirect, the store
is returned unchanged (the row remains); the owner's delete removes exactly
the row and the deleted row is no longer present. -/
theorem delete_comment_owner_only :
    ∀ (s : Store) (uid cid : Nat) (c : Comment),
      s.comments.find? (fun d => d.id == cid) = some c →
      (c.user_id ≠ uid →
        delete_comment s uid cid =
          (s, .forbidden ⟨"Вы можете удалять только свои комментарии.",
            "danger"⟩)) ∧
      (c.user_id = uid →
        delete_comment s uid cid =
          ({ s with comments := s.comments.filter (fun d => d.id != cid) },
           .deleted ⟨"Комментарий удалён.", "success"⟩) ∧
        c ∉ (delete_comment s uid cid).1.comments) := by
  intro s uid cid c hfind
  constructor
  · intro hne
    have hb : (c.user_id != uid) = true := by simpa using hne
    simp [delete_comment, hfind, hb]
  · intro heq
    have hb : (c.user_id != uid) = false := by simp [heq]
    have hres : delete_comment s uid cid =
        ({ s with comments := s.comments.filter (fun d => d.id != cid) },
         .deleted ⟨"Комментарий удалён.", "success"⟩) := by
      simp [delete_comment, hfind, hb]
    refine ⟨hres, ?_⟩
    rw [hres]
    have hcid : c.id = cid := by simpa using List.find?_some hfind
    simp [List.mem_filter, hcid]

/-- Witness for C8: user 2 cannot delete user 1's comment; the store is
unchanged. -/
theorem delete_comment_owner_only_witness :
    delete_comment
        { users := [], nextUserId := 1,
          comments := [{ id := 1, body := "hi", user_id := 1 }],
          nextCommentId := 2 } 2 1 =
      ({ users := [], nextUserId := 1,
         comments := [{ id := 1, body := "hi", user_id := 1 }],
         nextCommentId := 2 },
       .forbidden ⟨"Вы можете удалять только свои комментарии.", "danger"⟩) :=
  (delete_comment_owner_only
    { users := [], nextUserId := 1,
      comments := [{ id := 1, body := "hi", user_id := 1 }],
      nextCommentId := 2 } 2 1 { id := 1, body := "hi", user_id := 1 }
    (by decide)).1 (by decide)

/-- Counterexample to C9 as stated: the body consisting of one space has
length 1, between 1 and 500, yet the create is rejected and nothing is
persisted — `DataRequired` fails on a whitespace-only body. -/
theorem whitespace_body_rejected :
    (" " : String).length = 1 ∧
    comments_post emptyStore 7 " " = (emptyStore, false) :=
  ⟨by decide, by decide⟩

/-- C9 as amended: for an authenticated comment-create request, a body that
is empty, whitespace-only, or longer than 500 characters is rejected before
persistence and no Comment row is added; a body of length between 1 and 500
characters containing at least one non-whitespace character is accepted and
persisted with the current Account as owner. -/
theorem comment_validation_bounds :
    ∀ (s : Store) (uid : Nat) (body : String),
      ((body = "" ∨ body.data.any (fun c => !pyIsSpace c) = false ∨
          500 < body.length) →
        comments_post s uid body = (s, false)) ∧
      ((body.data.any (fun c => !pyIsSpace c) = true ∧
          1 ≤ body.length ∧ body.length ≤ 500) →
        comments_post s uid body =
          ({ s with
              comments := s.comments ++
                [{ id := s.nextCommentId, body := body, user_id := uid }],
              nextCommentId := s.nextCommentId + 1 }, true)) := by
  intro s uid body
  constructor
  · intro h
    rcases h with h | h | h
    · simp [comments_post, dataRequired, h]
    · simp [comments_post, dataRequired, h]
    · have hh : ¬ (body.length ≤ 500) := by omega
      simp [comments_post, lengthValid, hh]
  · rintro ⟨hany, h1, h500⟩
    have hne : body ≠ "" := by
      intro hb
      rw [hb] at hany
      simp at hany
    simp [comments_post, dataRequired, lengthValid, hne, hany, h1, h500]

/-- Witness for C9 (amended): the two-character body `hi` is accepted and
persisted for Account 7. -/
theorem comment_validation_bounds_witness :
    comments_post emptyStore 7 "hi" =
      ({ users := [], nextUserId := 1,
         comments := [{ id := 1, body := "hi", user_id := 7 }],
         nextCommentId := 2 }, true) :=
  (comment_validation_bounds emptyStore 7 "hi").2 ⟨by decide, by decide, by decide⟩

/-- Counterexample to C5 as stated: on a callback whose token exchange
returns HTTP 400, the Yandex handler evaluated at a concrete input creates
no Account and establishes no session, but its outcome is an unhandled
exception, not the claimed redirect to `/comments` with an error notice. -/
theorem token_failure_not_redirected :
    callback_yandex emptyStore none (TokenResponse.failure 400 "invalid_grant")
        ⟨some "y1", some "a@x", none, none⟩ =
      (emptyStore, none, Outcome.unhandledException) ∧
    (callback_yandex emptyStore none (TokenResponse.failure 400 "invalid_grant")
        ⟨some "y1", some "a@x", none, none⟩).2.2.isRedirect = false ∧
    callback_google emptyStore none (TokenResponse.failure 400 "invalid_grant")
        ⟨some "g1", some "a@x", none⟩ =
      (emptyStore, none, Outcome.unhandledException) :=
  ⟨rfl, rfl, rfl⟩

/-- C5 as amended: for every OAuth callback whose token exchange returns a
non-2xx response, the handler (either provider) creates no Account, modifies
nothing, and establishes no session — but the failure propagates as an
unhandled exception (`oauthlib` raises on the error body and the handlers
have no exception handling), rather than being converted to a flash message
and a redirect to `/comments`. -/
theorem token_failure_unhandled :
    ∀ (s : Store) (sess : Option Nat) (status : Nat) (errBody : String)
      (yi : YandexUserinfo) (gi : GoogleUserinfo),
      callback_yandex s sess (TokenResponse.failure status errBody) yi =
        (s, sess, Outcome.unhandledException) ∧
      callback_google s sess (TokenResponse.failure status errBody) gi =
        (s, sess, Outcome.unhandledException) :=
  fun _ _ _ _ _ _ => ⟨rfl, rfl⟩

/-- C6 is violated by the code: a Yandex userinfo response with no `id`
field does not abort resolution.  First conjunct: on a store holding one
Google-only Account (whose `yandex_id` is NULL), the provider-id lookup
`filter_by(yandex_id=None)` matches that row, so the handler logs the caller
into that unrelated Account (session id 1, success flash) instead of failing
before any write.  Second conjunct: on the empty store with an all-missing
userinfo, the handler inserts a row whose `yandex_id` and `email` are both
NULL — a write the claim says must never happen. -/
theorem missing_external_id_not_aborted :
    callback_yandex
        { users := [{ id := 1, yandex_id := none, google_id := some "g1",
                      name := some "Bob", email := some "bob@x" }],
          nextUserId := 2, comments := [], nextCommentId := 1 }
        none (TokenResponse.success "tok")
        { id := none, default_email := some "eve@x", real_name := some "Eve",
          display_name := none } =
      ({ users := [{ id := 1, yandex_id := none, google_id := some "g1",
                     name := some "Bob", email := some "bob@x" }],
         nextUserId := 2, comments := [], nextCommentId := 1 },
       some 1,
       Outcome.redirectComments
         ⟨"Вы успешно вошли через Yandex как Bob!", "success"⟩) ∧
    (callback_yandex emptyStore none (TokenResponse.success "tok")
        { id := none, default_email := none, real_name := none,
          display_name := none }).1.users =
      [{ id := 1, yandex_id := none, google_id := none, name := none,
         email := none }] :=
  ⟨by decide, by decide⟩

/-- C7 is violated by the code: an Account created without an email is
later found and modified by the email-lookup step.  After a Yandex sign-in
with externalId `y1` and no email creates Account 1 (email NULL), a second
Yandex sign-in with fresh externalId `y2` and no email reaches the email
lookup `filter_by(email=None)`, which matches Account 1's NULL email: the
resolution returns Account 1 again and overwrites its `yandex_id` with
`y2`. -/
theorem null_email_merge_modifies_emailless_account :
    (resolve_yandex emptyStore ⟨some "y1", none, some "A"⟩).2.id = 1 ∧
    (resolve_yandex emptyStore ⟨some "y1", none, some "A"⟩).2.email = none ∧
    (resolve_yandex (resolve_yandex emptyStore ⟨some "y1", none, some "A"⟩).1
        ⟨some "y2", none, some "B"⟩).2.id = 1 ∧
    (resolve_yandex (resolve_yandex emptyStore ⟨some "y1", none, some "A"⟩).1
        ⟨some "y2", none, some "B"⟩).1.users =
      [{ id := 1, yandex_id := some "y2", google_id := none, name := some "A",
         email := none }] :=
  ⟨by decide, by decide, by decide, by decide⟩
